import Mathlib

/-!
Shallow embedding of the dynamic-DNS updater in `src/server.js`
(CF_DNSAct-withAPI).  The JavaScript is single-threaded and every call in
the sync path is awaited, so each function is modelled as a pure Lean
function from its inputs and an explicit environment (the outcomes of the
outbound HTTP calls, the state of the log file on disk) to its result plus
a trace of observable events (state commits, API calls, log appends).
-/

namespace CFDns

/-- Log levels used by `appendToLogFile` in `server.js`. -/
inductive Level where
  | INFO
  | WARN
  | ERROR
deriving DecidableEq, Repr

/-- A log entry as far as the claims are concerned: level plus message.
(The JS entry also carries a server-assigned timestamp and ad-hoc fields;
they do not affect any claim.) -/
structure LogEntry where
  level : Level
  message : String
deriving DecidableEq, Repr

/-- The state of `log/latest.json` on disk, as seen by `appendToLogFile`
(server.js lines 65-101).  The cases mirror what `JSON.parse` and the
subsequent property accesses can encounter:

* `absent` — the file does not exist;
* `corrupt` — `JSON.parse` throws;
* `parsedNoLogs` — parses, but `logs` is missing or has no `push`
  (e.g. the document `"{}"`), so `logData.logs.push(...)` throws;
* `parsedNoMeta logs` — `logs` is a usable array but `metadata` is
  missing, so `logData.metadata.lastUpdated = ...` throws after the push
  (the file is never rewritten);
* `doc logs` — a well-formed document `{metadata: {...}, logs: [...]}`. -/
inductive FileState where
  | absent
  | corrupt
  | parsedNoLogs
  | parsedNoMeta (logs : List LogEntry)
  | doc (logs : List LogEntry)
deriving DecidableEq, Repr

/-- `ensureLogFile` (server.js lines 50-57): creates the log file with
`{ metadata: {}, logs: [] }` when it does not exist; otherwise leaves the
disk untouched. -/
def ensureLogFile : FileState → FileState
  | .absent => .doc []
  | fs => fs

/-- The message logged by `appendToLogFile` when `JSON.parse` fails
(server.js line 77). -/
def parseFailMessage : String := "ログファイルのJSONパースに失敗しました。新規作成します。"

/-- `appendToLogFile(level, data)` (server.js lines 65-101).

The first argument is the number of stack frames available: entering the
function consumes one, and a call attempted with none available raises
`RangeError` (stack overflow) *at the call site*, which is what the
returned Bool records (`true` = an exception escaped to the caller).

Body, mirroring the source: `ensureLogFile()`; inside a `try`:
start from a fresh document, read the file, `JSON.parse` it; on a parse
error the `catch (parseError)` handler recursively calls
`appendToLogFile('WARN', ...)` on the still-corrupt file (an unbounded
recursion that terminates only by stack overflow, which the overflowing
frame's own outer `catch` swallows); afterwards push the new entry, stamp
`metadata.lastUpdated`, and rewrite the whole file.  Any exception inside
the `try` (TypeError on a malformed document, RangeError from the
recursive call) is swallowed by the outer `catch`, leaving the file as it
was. -/
def appendToLogFile : Nat → Level → String → FileState → FileState × Bool
  | 0, _, _, fs => (fs, true)
  | fuel + 1, lvl, msg, fs =>
    let fs1 := ensureLogFile fs
    match fs1 with
    | .absent => (fs1, false)
    | .doc logs => (.doc (logs ++ [⟨lvl, msg⟩]), false)
    | .parsedNoLogs => (fs1, false)
    | .parsedNoMeta _ => (fs1, false)
    | .corrupt =>
      let inner := appendToLogFile fuel .WARN parseFailMessage fs1
      if inner.2 then (fs1, false)
      else (.doc [⟨lvl, msg⟩], false)

/-- The three mandatory configuration variables checked by
`ensureRequiredEnvVars` (server.js line 36). -/
def requiredEnvVars : List String := ["CF_ZONE_ID", "CF_API_TOKEN", "CF_DNS_NAME"]

/-- The process environment, restricted to the variables `server.js`
reads.  `none` models an unset variable. -/
structure EnvVars where
  CF_ZONE_ID : Option String
  CF_API_TOKEN : Option String
  CF_DNS_NAME : Option String
deriving DecidableEq, Repr

/-- Value of `process.env[key]` for the three required keys. -/
def EnvVars.lookup (e : EnvVars) : String → Option String
  | "CF_ZONE_ID" => e.CF_ZONE_ID
  | "CF_API_TOKEN" => e.CF_API_TOKEN
  | "CF_DNS_NAME" => e.CF_DNS_NAME
  | _ => none

/-- JS truthiness of `process.env[key]`: `!process.env[key]` is true when
the variable is unset (`undefined`) or set to the empty string. -/
def envFalsy : Option String → Bool
  | none => true
  | some s => s = ""

/-- `requiredEnvVars.filter(key => !process.env[key])` (server.js
line 37). -/
def missingEnvVars (e : EnvVars) : List String :=
  requiredEnvVars.filter (fun k => envFalsy (e.lookup k))

/-- The error message built on server.js line 39. -/
def missingEnvMessage (missing : List String) : String :=
  "必須環境変数 " ++ String.intercalate ", " missing ++ " が設定されていません。"

/-- `ensureRequiredEnvVars` (server.js lines 35-44): when some required
variable is missing it logs the message naming the missing keys and calls
`process.exit(1)`; modelled as `some (exitCode, loggedMessage)`.
Otherwise it returns normally (`none`). -/
def ensureRequiredEnvVars (e : EnvVars) : Option (Nat × String) :=
  if missingEnvVars e = [] then none
  else some (1, missingEnvMessage (missingEnvVars e))

/-- JS truthiness of a `string | null` value: `!x` is true when `x` is
`null` or the empty string. -/
def jsFalsy : Option String → Bool
  | none => true
  | some s => s = ""

/-- DNS record types handled by the updater. -/
inductive RecordType where
  | A
  | AAAA
deriving DecidableEq, Repr

/-- The string a record type interpolates to in messages and API data. -/
def recTypeName : RecordType → String
  | .A => "A"
  | .AAAA => "AAAA"

/-- IP families; `v4` is synced to `A` records, `v6` to `AAAA`. -/
inductive Fam where
  | v4
  | v6
deriving DecidableEq, Repr

/-- `monitorIpAddress` passes version 4 or 6 to `fetchPublicIpAddress`. -/
def famVersion : Fam → Nat
  | .v4 => 4
  | .v6 => 6

/-- The record type `monitorIpAddress` syncs for each family. -/
def famType : Fam → RecordType
  | .v4 => .A
  | .v6 => .AAAA

/-- The per-request axios options, reduced to the one field the claims
are about. `timeout = none` models an options object with no `timeout`
key (axios then applies no timeout at all). -/
structure AxiosOptions where
  timeout : Option Nat
deriving DecidableEq, Repr

/-- Options of the record lookup `axios.get(apiUrl, { headers, params })`
(server.js line 121): no `timeout` key. -/
def dnsLookupOptions : AxiosOptions := { timeout := none }

/-- Options of the record create `axios.post(..., { headers, timeout:
10000 })` (server.js line 165). -/
def dnsCreateOptions : AxiosOptions := { timeout := some 10000 }

/-- Options of the record update `axios.put(..., { headers, timeout:
10000 })` (server.js line 237). -/
def dnsUpdateOptions : AxiosOptions := { timeout := some 10000 }

/-- Options of the address fetch `axios.get(fetchUrl, { timeout: 5000 })`
(server.js line 287). -/
def ipFetchOptions : AxiosOptions := { timeout := some 5000 }

/-- The options of the three Record Store Client calls, in source order:
lookup, create, update. -/
def recordStoreCallOptions : List AxiosOptions :=
  [dnsLookupOptions, dnsCreateOptions, dnsUpdateOptions]

/-- Outcome of the `GET /dns_records?name=...&type=...` lookup:
`ok ids` — HTTP success with `data.success = true` and `data.result` the
listed records (we keep their ids); `apiFail` — response received but
`data.success = false`; `transportError` — axios threw. -/
inductive LookupResult where
  | ok (ids : List String)
  | apiFail
  | transportError
deriving DecidableEq, Repr

/-- Outcome of a create (POST) or update (PUT) call: provider accepted
(`data.success = true`), provider refused (`data.success = false`), or
axios threw. -/
inductive ApiOutcome where
  | ok
  | apiFail
  | transportError
deriving DecidableEq, Repr

/-- Observable events of a run: in-memory address-state commits, the
entry/exit of an `updateDnsRecord` (upsert) invocation, the individual
provider HTTP calls, and `appendToLogFile` invocations. -/
inductive Event where
  | commit (fam : Fam) (ip : String)
  | upsertStart (t : RecordType) (ip : String)
  | upsertDone (t : RecordType) (ip : String)
  | lookupCall (t : RecordType) (name : String) (opts : AxiosOptions)
  | createCall (t : RecordType) (name content : String) (ttl : Nat) (proxied : Bool) (opts : AxiosOptions)
  | putCall (recordId : String) (t : RecordType) (name content : String) (ttl : Nat) (proxied : Bool) (opts : AxiosOptions)
  | log (lvl : Level) (msg : String)
deriving DecidableEq, Repr

/-- The configuration `server.js` reads from the environment at load
time, plus the zone/name/token identifiers. -/
structure Config where
  dnsName : String
  proxied : Bool
  ttl : Nat
  ipv6Enabled : Bool
  retryCount : Nat
deriving DecidableEq, Repr

/-- `fetchDnsRecordId(type)` (server.js lines 109-142): GET the records
matching name+type; on `success && result.length > 0` return
`result[0].id`; otherwise return null; on a transport error log an ERROR
and return null. -/
def fetchDnsRecordId (cfg : Config) (lr : LookupResult) (t : RecordType) :
    Option String × List Event :=
  let callEv := Event.lookupCall t cfg.dnsName dnsLookupOptions
  match lr with
  | .ok [] => (none, [callEv])
  | .ok (i :: _) => (some i, [callEv])
  | .apiFail => (none, [callEv])
  | .transportError =>
    (none, [callEv,
      .log .ERROR (recTypeName t ++ "レコードの取得に失敗しました (name: " ++ cfg.dnsName ++ ")")])

/-- `createDnsRecord(type, ipAddress)` (server.js lines 150-199): POST
the record with the configured ttl/proxied flags; log INFO on provider
success, ERROR on provider refusal or transport error. -/
def createDnsRecord (cfg : Config) (outcome : ApiOutcome) (t : RecordType) (ip : String) :
    List Event :=
  Event.createCall t cfg.dnsName ip cfg.ttl cfg.proxied dnsCreateOptions ::
    match outcome with
    | .ok => [.log .INFO (recTypeName t ++ "レコードを " ++ ip ++ " に作成成功")]
    | .apiFail => [.log .ERROR (recTypeName t ++ "レコードの作成に失敗")]
    | .transportError => [.log .ERROR (recTypeName t ++ "レコードの作成中にエラー発生")]

/-- The outcomes of the outbound provider calls a single
`updateDnsRecord` invocation may make. -/
structure UpsertEnv where
  lookup : LookupResult
  createOutcome : ApiOutcome
  putOutcome : ApiOutcome
deriving DecidableEq, Repr

/-- `updateDnsRecord(type, ipAddress)` (server.js lines 207-271): fetch
the record id; `if (!recordId)` (null — no match, provider refusal or
transport error) log a WARN and fall through to `createDnsRecord`;
otherwise PUT the full record content at that id, logging INFO on
provider success and ERROR otherwise. -/
def updateDnsRecord (cfg : Config) (uenv : UpsertEnv) (t : RecordType) (ip : String) :
    List Event :=
  let lookedUp := fetchDnsRecordId cfg uenv.lookup t
  let createBranch :=
    Event.log .WARN
        (recTypeName t ++ "レコードが見つからなかったため、作成を試みます (name: " ++
          cfg.dnsName ++ ")。") ::
      createDnsRecord cfg uenv.createOutcome t ip
  lookedUp.2 ++
    if jsFalsy lookedUp.1 then createBranch
    else
      match lookedUp.1 with
      | none => createBranch
      | some rid =>
        Event.putCall rid t cfg.dnsName ip cfg.ttl cfg.proxied dnsUpdateOptions ::
          match uenv.putOutcome with
          | .ok => [.log .INFO (recTypeName t ++ "レコードを " ++ ip ++ " に更新成功")]
          | .apiFail => [.log .ERROR (recTypeName t ++ "レコードの更新に失敗")]
          | .transportError => [.log .ERROR (recTypeName t ++ "レコードの更新中にエラー発生")]

/-- The WARN message of a failed fetch attempt (server.js line 291). -/
def fetchAttemptWarnMessage (version attempt retryCount : Nat) : String :=
  "IPv" ++ toString version ++ "アドレスの取得に失敗しました (試行 " ++
    toString attempt ++ "/" ++ toString retryCount ++ ")"

/-- The ERROR message when retries are exhausted (server.js line 303). -/
def fetchMaxRetryMessage (version retryCount : Nat) : String :=
  "IPv" ++ toString version ++ "アドレスの取得に最大リトライ回数(" ++
    toString retryCount ++ ")を超過しました。"

/-- The body of `fetchPublicIpAddress`'s `while (attempts < retryCount)`
loop (server.js lines 284-320).  `results a` is the outcome of the a-th
HTTP attempt (`some ip` — response received, with `data.ip = ip`;
`none` — axios threw).  `attempts` is the count already made and
`remaining` is `retryCount - attempts`, the loop variant. -/
def fetchLoop (results : Nat → Option String) (version retryCount : Nat) :
    Nat → Nat → Option String × List Event
  | _, 0 => (none, [])
  | attempts, remaining + 1 =>
    let a := attempts + 1
    match results a with
    | some ip => (some ip, [])
    | none =>
      let warnEv := Event.log .WARN (fetchAttemptWarnMessage version a retryCount)
      if retryCount ≤ a then
        (none, [warnEv, .log .ERROR (fetchMaxRetryMessage version retryCount)])
      else
        let rest := fetchLoop results version retryCount a remaining
        (rest.1, warnEv :: rest.2)

/-- `fetchPublicIpAddress(version, retryCount)` (server.js lines
280-323): try up to `retryCount` times with linear backoff, returning the
first received `data.ip`, or null after exhausting the attempts. -/
def fetchPublicIpAddress (version retryCount : Nat) (results : Nat → Option String) :
    Option String × List Event :=
  fetchLoop results version retryCount 0 retryCount

/-- The INFO message of the unchanged case (server.js lines 339/359). -/
def noChangeMessage (fam : Fam) : String :=
  "IPv" ++ toString (famVersion fam) ++ "アドレスに変更はありません"

/-- The ERROR message when a cycle's resolution fails (server.js lines
342/362). -/
def fetchFailedMessage (fam : Fam) : String :=
  "IPv" ++ toString (famVersion fam) ++ "アドレスの取得に失敗しました。DNS更新をスキップします。"

/-- One family's slice of `monitorIpAddress` (server.js lines 330-346 for
v4, 350-367 for v6): resolve the address; `if (newIP)` (truthy) and it
differs from the stored value, first assign the stored variable
(`currentIPv4 = newIPv4`) and then await `updateDnsRecord`; if it is
unchanged log the INFO "no change" entry; if resolution failed (falsy)
log an ERROR and skip the DNS update. -/
def monitorFamily (cfg : Config) (fam : Fam) (results : Nat → Option String)
    (uenv : UpsertEnv) (stored : Option String) : Option String × List Event :=
  let fetched := fetchPublicIpAddress (famVersion fam) cfg.retryCount results
  match fetched.1 with
  | some s =>
    if s = "" then
      (stored, fetched.2 ++ [.log .ERROR (fetchFailedMessage fam)])
    else if some s = stored then
      (stored, fetched.2 ++ [.log .INFO (noChangeMessage fam)])
    else
      (some s,
        fetched.2 ++
          Event.commit fam s ::
            Event.upsertStart (famType fam) s ::
              updateDnsRecord cfg uenv (famType fam) s ++ [.upsertDone (famType fam) s])
  | none => (stored, fetched.2 ++ [.log .ERROR (fetchFailedMessage fam)])

/-- The mutable module-level state `currentIPv4` / `currentIPv6`
(server.js lines 20-21). -/
structure MonState where
  v4 : Option String
  v6 : Option String
deriving DecidableEq, Repr

/-- The outcomes of every outbound call one sync cycle may make. -/
structure CycleEnv where
  fetch4 : Nat → Option String
  fetch6 : Nat → Option String
  upsert4 : UpsertEnv
  upsert6 : UpsertEnv

/-- `monitorIpAddress` (server.js lines 329-368): process the v4 family
fully, then — only when IPv6 is enabled — the v6 family. -/
def monitorIpAddress (cfg : Config) (env : CycleEnv) (st : MonState) :
    MonState × List Event :=
  let r4 := monitorFamily cfg .v4 env.fetch4 env.upsert4 st.v4
  if cfg.ipv6Enabled then
    let r6 := monitorFamily cfg .v6 env.fetch6 env.upsert6 st.v6
    (⟨r4.1, r6.1⟩, r4.2 ++ r6.2)
  else
    (⟨r4.1, st.v6⟩, r4.2)

/-- The WARN message when an initial update is skipped (server.js
line 409). -/
def skipInitialMessage (t : RecordType) : String :=
  recTypeName t ++ "アドレスが取得できなかったため、初回DNS更新をスキップします。"

/-- The startup INFO message (server.js line 384; the port does not
affect any claim). -/
def serverStartedMessage : String := "サーバーが起動しました"

/-- The per-type initial update of `startServer`'s final loop (server.js
lines 404-414): `if (currentIpAddress)` (truthy) await `updateDnsRecord`,
else log a WARN and skip. -/
def initialUpdate (cfg : Config) (uenv : UpsertEnv) (t : RecordType) (ip : Option String) :
    List Event :=
  match ip with
  | some s =>
    if s = "" then [.log .WARN (skipInitialMessage t)]
    else
      Event.upsertStart t s ::
        updateDnsRecord cfg uenv t s ++ [.upsertDone t s]
  | none => [.log .WARN (skipInitialMessage t)]

/-- `startServer` (server.js lines 378-415): check the required
environment variables (exiting with status 1 if any is missing — modelled
by a `some exitCode` first component and a trace holding only the ERROR
log); otherwise log startup, resolve both families' addresses
(v6 only when enabled), register the periodic monitor, and run one
unconditional initial update per enabled record type. -/
def startServer (cfg : Config) (e : EnvVars) (senv : CycleEnv) :
    Option Nat × MonState × List Event :=
  match ensureRequiredEnvVars e with
  | some (code, msg) => (some code, ⟨none, none⟩, [.log .ERROR msg])
  | none =>
    let startLog := [Event.log .INFO serverStartedMessage]
    let fetched4 := fetchPublicIpAddress 4 cfg.retryCount senv.fetch4
    let fetched6 :=
      if cfg.ipv6Enabled then fetchPublicIpAddress 6 cfg.retryCount senv.fetch6
      else (none, [])
    let evA := initialUpdate cfg senv.upsert4 .A fetched4.1
    let evAAAA :=
      if cfg.ipv6Enabled then initialUpdate cfg senv.upsert6 .AAAA fetched6.1 else []
    (none, ⟨fetched4.1, fetched6.1⟩,
      startLog ++ fetched4.2 ++ fetched6.2 ++ evA ++ evAAAA)

/-- The Change Detector contract of the spec, extracted from the guard
`monitorIpAddress` applies (server.js lines 332-333): the resolved value
must be truthy (`if (newIPv4)`) and differ from the stored value
(`newIPv4 !== currentIPv4`). -/
def shouldSync (resolved stored : Option String) : Bool :=
  match resolved with
  | none => false
  | some s => if s = "" then false else decide (some s ≠ stored)

/-- Is this event an `updateDnsRecord` invocation (an upsert attempt)? -/
def isUpsertStart : Event → Bool
  | .upsertStart _ _ => true
  | _ => false

/-- Is this event a provider HTTP call? -/
def isApiCall : Event → Bool
  | .lookupCall _ _ _ => true
  | .createCall _ _ _ _ _ _ => true
  | .putCall _ _ _ _ _ _ _ => true
  | _ => false

/-- Is this event a create (POST) call? -/
def isCreateCall : Event → Bool
  | .createCall _ _ _ _ _ _ => true
  | _ => false

/-- Is this event a commit of the in-memory address state? -/
def isCommit : Event → Bool
  | .commit _ _ => true
  | _ => false

/-- Is this event the completion of an upsert invocation? -/
def isUpsertDone : Event → Bool
  | .upsertDone _ _ => true
  | _ => false

/-- Is this event an `appendToLogFile` call at the given level? -/
def isLogAt (lvl : Level) : Event → Bool
  | .log l _ => l = lvl
  | _ => false

/-- The record type an event is about, when any. -/
def eventType : Event → Option RecordType
  | .upsertStart t _ => some t
  | .upsertDone t _ => some t
  | .lookupCall t _ _ => some t
  | .createCall t _ _ _ _ _ => some t
  | .putCall _ t _ _ _ _ _ => some t
  | _ => none

/-- Number of upsert attempts in a trace. -/
def countUpsertStart (tr : List Event) : Nat := tr.countP isUpsertStart

/-- Number of log appends at a level in a trace. -/
def countLog (lvl : Level) (tr : List Event) : Nat := tr.countP (isLogAt lvl)

/-- Number of events about the given record type in a trace. -/
def countType (t : RecordType) (tr : List Event) : Nat :=
  tr.countP (fun e => decide (eventType e = some t))

/-! ### Concrete fixtures used by counterexamples and witnesses -/

/-- A concrete configuration: record `example.com`, not proxied, TTL
3600, IPv6 disabled, 3 fetch retries (the code's defaults). -/
def cfgEx : Config :=
  { dnsName := "example.com", proxied := false, ttl := 3600,
    ipv6Enabled := false, retryCount := 3 }

/-- Provider behaviour where the record exists (id `"rid0"`) and the PUT
is answered with `success: false` — a provider-reported upsert failure. -/
def upsertFailEnv : UpsertEnv :=
  { lookup := .ok ["rid0"], createOutcome := .ok, putOutcome := .apiFail }

/-- Provider behaviour where the record lookup itself throws a transport
error. -/
def upsertLookupDownEnv : UpsertEnv :=
  { lookup := .transportError, createOutcome := .ok, putOutcome := .ok }

/-- A cycle in which v4 resolves to `203.0.113.9` on the first attempt,
v6 never resolves, and the provider rejects the PUT. -/
def cycleEnvEx : CycleEnv :=
  { fetch4 := fun _ => some "203.0.113.9", fetch6 := fun _ => none,
    upsert4 := upsertFailEnv, upsert6 := upsertFailEnv }

/-- A startup environment in which v4 resolves to `203.0.113.5` on the
first attempt. -/
def startupEnvEx : CycleEnv :=
  { fetch4 := fun _ => some "203.0.113.5", fetch6 := fun _ => none,
    upsert4 := upsertFailEnv, upsert6 := upsertFailEnv }

/-- An environment with `CF_ZONE_ID` unset. -/
def envMissingZone : EnvVars :=
  { CF_ZONE_ID := none, CF_API_TOKEN := some "token", CF_DNS_NAME := some "example.com" }

/-- An environment with all three mandatory variables set. -/
def envComplete : EnvVars :=
  { CF_ZONE_ID := some "zone", CF_API_TOKEN := some "token",
    CF_DNS_NAME := some "example.com" }

/-- Provider behaviour where the lookup returns two matching records. -/
def uenvMulti : UpsertEnv :=
  { lookup := .ok ["r1", "r2"], createOutcome := .ok, putOutcome := .ok }

/-- The trace of one v4 cycle slice that resolves `203.0.113.9` against
stored `198.51.100.7` while the provider rejects the PUT. -/
def monitorTraceEx : List Event :=
  (monitorFamily cfgEx .v4 (fun _ => some "203.0.113.9") upsertFailEnv
    (some "198.51.100.7")).2

/-! ### Helper lemmas about the traces -/

/-- Every event the retry loop emits is a WARN or ERROR log append. -/
lemma fetchLoop_shape (results : Nat → Option String) (version rc : Nat) :
    ∀ remaining attempts, ∀ e ∈ (fetchLoop results version rc attempts remaining).2,
      (∃ m, e = Event.log .WARN m) ∨ (∃ m, e = Event.log .ERROR m) := by
  intro remaining
  induction remaining with
  | zero => intro attempts e he; simp [fetchLoop] at he
  | succ n ih =>
    intro attempts e he
    simp only [fetchLoop] at he
    split at he
    · simp at he
    · split at he
      · simp at he
        rcases he with rfl | rfl
        · exact Or.inl ⟨_, rfl⟩
        · exact Or.inr ⟨_, rfl⟩
      · simp at he
        rcases he with rfl | hmem
        · exact Or.inl ⟨_, rfl⟩
        · exact ih attempts.succ e hmem

/-- A predicate false on WARN and ERROR logs counts zero over the retry
loop's events. -/
lemma fetchLoop_countP_zero (results : Nat → Option String) (version rc : Nat)
    (p : Event → Bool) (hW : ∀ m, p (.log .WARN m) = false)
    (hE : ∀ m, p (.log .ERROR m) = false) (remaining attempts : Nat) :
    (fetchLoop results version rc attempts remaining).2.countP p = 0 := by
  rw [List.countP_eq_zero]
  intro e he
  rcases fetchLoop_shape results version rc remaining attempts e he with ⟨m, rfl⟩ | ⟨m, rfl⟩
  · simp [hW]
  · simp [hE]

/-- When every attempt fails, the loop returns null after `remaining`
WARN appends and a final ERROR append. -/
lemma fetchLoop_allFail (results : Nat → Option String) (version rc : Nat)
    (hall : ∀ a, results a = none) :
    ∀ remaining attempts, remaining + attempts = rc → 1 ≤ remaining →
      (fetchLoop results version rc attempts remaining).1 = none ∧
      countLog .WARN (fetchLoop results version rc attempts remaining).2 = remaining ∧
      countLog .ERROR (fetchLoop results version rc attempts remaining).2 = 1 := by
  intro remaining
  induction remaining with
  | zero => intro attempts _ h1; omega
  | succ n ih =>
    intro attempts hsum _
    simp only [fetchLoop, hall (attempts + 1)]
    rcases Nat.eq_zero_or_pos n with rfl | hn
    · have h : rc ≤ attempts + 1 := by omega
      simp [h, countLog, List.countP_cons, isLogAt]
    · have h : ¬ rc ≤ attempts + 1 := by omega
      obtain ⟨h1, h2, h3⟩ := ih (attempts + 1) (by omega) (by omega)
      simp only [h, if_false]
      refine ⟨h1, ?_, ?_⟩
      · simp [countLog, List.countP_cons, isLogAt] at h2 ⊢
        omega
      · simp [countLog, List.countP_cons, isLogAt] at h3 ⊢
        omega

/-- `fetchPublicIpAddress` under total failure: null result, one WARN per
attempt, one ERROR. -/
lemma fetch_allFail (results : Nat → Option String) (version rc : Nat)
    (hall : ∀ a, results a = none) (hrc : 1 ≤ rc) :
    (fetchPublicIpAddress version rc results).1 = none ∧
    countLog .WARN (fetchPublicIpAddress version rc results).2 = rc ∧
    countLog .ERROR (fetchPublicIpAddress version rc results).2 = 1 :=
  fetchLoop_allFail results version rc hall rc 0 (by omega) hrc

/-- A predicate false on WARN and ERROR logs counts zero over the
resolver's events. -/
lemma fetch_countP_zero (results : Nat → Option String) (version rc : Nat)
    (p : Event → Bool) (hW : ∀ m, p (.log .WARN m) = false)
    (hE : ∀ m, p (.log .ERROR m) = false) :
    (fetchPublicIpAddress version rc results).2.countP p = 0 :=
  fetchLoop_countP_zero results version rc p hW hE rc 0

/-- A predicate false on logs and on API calls of the requested type
counts zero over `updateDnsRecord`'s events. -/
lemma updateDnsRecord_countP_zero (cfg : Config) (uenv : UpsertEnv) (t : RecordType)
    (ip : String) (p : Event → Bool) (hlog : ∀ lvl m, p (.log lvl m) = false)
    (happ : ∀ e, isApiCall e = true → eventType e = some t → p e = false) :
    (updateDnsRecord cfg uenv t ip).countP p = 0 := by
  have h1 : p (Event.lookupCall t cfg.dnsName dnsLookupOptions) = false := happ _ rfl rfl
  have h2 : p (Event.createCall t cfg.dnsName ip cfg.ttl cfg.proxied dnsCreateOptions) =
      false := happ _ rfl rfl
  have h3 : ∀ rid, p (Event.putCall rid t cfg.dnsName ip cfg.ttl cfg.proxied
      dnsUpdateOptions) = false := fun rid => happ _ rfl rfl
  rcases uenv with ⟨lr, co, po⟩
  rcases lr with ids | _ | _
  · rcases ids with _ | ⟨i, rest⟩
    · rcases co with _ | _ | _ <;>
        simp [updateDnsRecord, fetchDnsRecordId, createDnsRecord, jsFalsy,
          List.countP_cons, List.countP_append, hlog, h1, h2, h3]
    · by_cases hi : i = "" <;>
        rcases co with _ | _ | _ <;> rcases po with _ | _ | _ <;>
        simp [updateDnsRecord, fetchDnsRecordId, createDnsRecord, jsFalsy, hi,
          List.countP_cons, List.countP_append, hlog, h1, h2, h3]
  · rcases co with _ | _ | _ <;>
      simp [updateDnsRecord, fetchDnsRecordId, createDnsRecord, jsFalsy,
        List.countP_cons, List.countP_append, hlog, h1, h2, h3]
  · rcases co with _ | _ | _ <;>
      simp [updateDnsRecord, fetchDnsRecordId, createDnsRecord, jsFalsy,
        List.countP_cons, List.countP_append, hlog, h1, h2, h3]

/-- The changed branch of a family's slice of the cycle: commit first,
then the upsert invocation. -/
lemma monitorFamily_changed (cfg : Config) (fam : Fam) (results : Nat → Option String)
    (uenv : UpsertEnv) (stored : Option String) (s : String)
    (hf : (fetchPublicIpAddress (famVersion fam) cfg.retryCount results).1 = some s)
    (hne : s ≠ "") (hd : some s ≠ stored) :
    monitorFamily cfg fam results uenv stored =
      (some s,
        (fetchPublicIpAddress (famVersion fam) cfg.retryCount results).2 ++
          Event.commit fam s ::
            Event.upsertStart (famType fam) s ::
              updateDnsRecord cfg uenv (famType fam) s ++
                [Event.upsertDone (famType fam) s]) := by
  simp [monitorFamily, hf, hne, hd]

/-- The unchanged branch of a family's slice of the cycle: a single INFO
"no change" append, no upsert. -/
lemma monitorFamily_nochange (cfg : Config) (fam : Fam) (results : Nat → Option String)
    (uenv : UpsertEnv) (s : String)
    (hf : (fetchPublicIpAddress (famVersion fam) cfg.retryCount results).1 = some s)
    (hne : s ≠ "") :
    monitorFamily cfg fam results uenv (some s) =
      (some s,
        (fetchPublicIpAddress (famVersion fam) cfg.retryCount results).2 ++
          [Event.log .INFO (noChangeMessage fam)]) := by
  simp only [monitorFamily, hf]
  simp [hne]

/-- The failed-resolution branch of a family's slice of the cycle: a
single ERROR append, stored state untouched, no upsert. -/
lemma monitorFamily_nofetch (cfg : Config) (fam : Fam) (results : Nat → Option String)
    (uenv : UpsertEnv) (stored : Option String)
    (hf : (fetchPublicIpAddress (famVersion fam) cfg.retryCount results).1 = none) :
    monitorFamily cfg fam results uenv stored =
      (stored,
        (fetchPublicIpAddress (famVersion fam) cfg.retryCount results).2 ++
          [Event.log .ERROR (fetchFailedMessage fam)]) := by
  simp only [monitorFamily, hf]

/-- With all mandatory variables present and IPv6 disabled, `startServer`
reduces to the startup log, the v4 resolution events, and the initial A
update. -/
lemma startServer_eq (cfg : Config) (e : EnvVars) (senv : CycleEnv)
    (hmiss : missingEnvVars e = []) (h6 : cfg.ipv6Enabled = false) :
    startServer cfg e senv =
      (none, ⟨(fetchPublicIpAddress 4 cfg.retryCount senv.fetch4).1, none⟩,
        Event.log .INFO serverStartedMessage ::
          (fetchPublicIpAddress 4 cfg.retryCount senv.fetch4).2 ++
            initialUpdate cfg senv.upsert4 .A
              (fetchPublicIpAddress 4 cfg.retryCount senv.fetch4).1) := by
  have henv : ensureRequiredEnvVars e = none := by
    simp [ensureRequiredEnvVars, hmiss]
  unfold startServer
  rw [henv, h6]
  dsimp only
  simp

/-! ### Claim theorems -/

/-- Claim C5: `append(level, fields)` never raises an exception to the
caller, and on an unparseable on-disk document it substitutes a fresh
empty document: the append still succeeds and the resulting document's
logs array contains exactly the newly appended entry.  The first fuel
argument is the number of stack frames available to the call: any call
that can be entered (`fuel + 1`) swallows every internal failure, and
with at least one further frame available (`fuel + 2`, the realistic
case — Node's stack holds thousands) an append over a corrupt document
ends with the document holding exactly the new entry. -/
theorem append_never_raises_and_recovers (fuel : Nat) (lvl : Level) (msg : String) :
    (∀ fs, (appendToLogFile (fuel + 1) lvl msg fs).2 = false) ∧
    appendToLogFile (fuel + 2) lvl msg .corrupt = (.doc [⟨lvl, msg⟩], false) := by
  have hraise : ∀ f l m fs, (appendToLogFile (f + 1) l m fs).2 = false := by
    intro f l m fs
    cases fs
    case corrupt =>
      simp only [appendToLogFile, ensureLogFile]
      split <;> rfl
    all_goals rfl
  refine ⟨fun fs => hraise fuel lvl msg fs, ?_⟩
  have hin := hraise fuel .WARN parseFailMessage .corrupt
  have hstep : appendToLogFile (fuel + 2) lvl msg .corrupt =
      (if (appendToLogFile (fuel + 1) .WARN parseFailMessage .corrupt).2 then
        (FileState.corrupt, false)
      else (.doc [⟨lvl, msg⟩], false)) := rfl
  rw [hstep, if_neg (by simp [hin])]

/-- Claim C10: when the on-disk log document parses as valid JSON but
lacks a `logs` array (for example `"{}"`), the append swallows the
resulting TypeError: no exception reaches the caller, the entry is not
persisted, and the document is left unchanged rather than replaced. -/
theorem append_noLogsArray_swallowed (fuel : Nat) (lvl : Level) (msg : String) :
    appendToLogFile (fuel + 1) lvl msg .parsedNoLogs = (.parsedNoLogs, false) := rfl

/-- Claim C8: when any mandatory configuration variable (zone id, API
token, record name) is missing at startup, the process logs the missing
keys and terminates with exit status 1 — and the startup trace holds
only that ERROR append: no resolution, no upsert, no sync cycle. -/
theorem startServer_missing_env_exits (cfg : Config) (e : EnvVars) (senv : CycleEnv)
    (h : missingEnvVars e ≠ []) :
    (startServer cfg e senv).1 = some 1 ∧
    (∀ c, (startServer cfg e senv).1 = some c → c ≠ 0) ∧
    (startServer cfg e senv).2.2 =
      [.log .ERROR (missingEnvMessage (missingEnvVars e))] ∧
    countUpsertStart (startServer cfg e senv).2.2 = 0 ∧
    (startServer cfg e senv).2.2.countP isApiCall = 0 := by
  have hval : startServer cfg e senv =
      (some 1, ⟨none, none⟩,
        [.log .ERROR (missingEnvMessage (missingEnvVars e))]) := by
    simp only [startServer, ensureRequiredEnvVars, if_neg h]
  refine ⟨by rw [hval], ?_, by rw [hval], ?_, ?_⟩
  · intro c hc
    rw [hval] at hc
    simp at hc
    omega
  · rw [hval]
    simp [countUpsertStart, isUpsertStart]
  · rw [hval]
    simp [isApiCall]

/-- Witness for C8 at a concrete environment missing `CF_ZONE_ID`. -/
theorem startServer_missing_env_exits_witness :
    (startServer cfgEx envMissingZone cycleEnvEx).1 = some 1 ∧
    (startServer cfgEx envMissingZone cycleEnvEx).2.2 =
      [.log .ERROR (missingEnvMessage (missingEnvVars envMissingZone))] ∧
    countUpsertStart (startServer cfgEx envMissingZone cycleEnvEx).2.2 = 0 := by
  have h := startServer_missing_env_exits cfgEx envMissingZone cycleEnvEx (by decide)
  exact ⟨h.1, h.2.2.1, h.2.2.2.1⟩

/-- Claim C7 is false on the code: it is not the case that every Record
Store Client call is configured with a bounded timeout exceeding the
resolver's — the record lookup `axios.get` carries no timeout at all. -/
theorem recordStore_timeout_claim_false :
    ¬ ∀ o ∈ recordStoreCallOptions, ∃ t, o.timeout = some t ∧
        ∃ rt, ipFetchOptions.timeout = some rt ∧ rt < t := by
  intro h
  obtain ⟨t, ht, _⟩ := h dnsLookupOptions (by simp [recordStoreCallOptions])
  simp [dnsLookupOptions] at ht

/-- Claim C7 amended: the create and update calls carry a fixed 10000 ms
timeout, larger than the resolver's 5000 ms per-attempt timeout, but the
record lookup call carries no timeout. -/
theorem recordStore_timeouts_amended :
    dnsLookupOptions.timeout = none ∧
    dnsCreateOptions.timeout = some 10000 ∧
    dnsUpdateOptions.timeout = some 10000 ∧
    ipFetchOptions.timeout = some 5000 ∧
    ∀ o ∈ [dnsCreateOptions, dnsUpdateOptions], ∃ t, o.timeout = some t ∧
      ∃ rt, ipFetchOptions.timeout = some rt ∧ rt < t := by
  refine ⟨rfl, rfl, rfl, rfl, ?_⟩
  intro o ho
  simp only [List.mem_cons, List.not_mem_nil, or_false] at ho
  rcases ho with rfl | rfl <;> exact ⟨10000, rfl, 5000, rfl, by norm_num⟩

/-- Claim C6: when every resolution attempt fails up to the configured
retry count, `fetchPublicIpAddress` returns null after one WARN append
per attempt and a final ERROR append, and the cycle makes no upsert (and
no provider call at all) for that family, leaving its state untouched. -/
theorem resolver_exhaustion (version rc : Nat) (results : Nat → Option String)
    (cfg : Config) (fam : Fam) (uenv : UpsertEnv) (stored : Option String)
    (hrc : 1 ≤ rc) (hall : ∀ a, results a = none) (hcfg : cfg.retryCount = rc) :
    (fetchPublicIpAddress version rc results).1 = none ∧
    countLog .WARN (fetchPublicIpAddress version rc results).2 = rc ∧
    countLog .ERROR (fetchPublicIpAddress version rc results).2 = 1 ∧
    countUpsertStart (monitorFamily cfg fam results uenv stored).2 = 0 ∧
    (monitorFamily cfg fam results uenv stored).2.countP isApiCall = 0 ∧
    (monitorFamily cfg fam results uenv stored).1 = stored := by
  obtain ⟨L1, L2, L3⟩ := fetch_allFail results version rc hall hrc
  obtain ⟨F1, _, _⟩ :=
    fetch_allFail results (famVersion fam) cfg.retryCount hall (by omega)
  have hmf := monitorFamily_nofetch cfg fam results uenv stored F1
  refine ⟨L1, L2, L3, ?_, ?_, by rw [hmf]⟩
  · rw [hmf]
    simp only [countUpsertStart, List.countP_append, List.countP_cons,
      List.countP_nil, isUpsertStart]
    simp [fetch_countP_zero results (famVersion fam) cfg.retryCount isUpsertStart
      (fun _ => rfl) (fun _ => rfl)]
  · rw [hmf]
    simp only [List.countP_append, List.countP_cons, List.countP_nil, isApiCall]
    simp [fetch_countP_zero results (famVersion fam) cfg.retryCount isApiCall
      (fun _ => rfl) (fun _ => rfl)]

/-- Witness for C6: three attempts, all failing. -/
theorem resolver_exhaustion_witness :
    (fetchPublicIpAddress 4 3 (fun _ => none)).1 = none ∧
    countLog .WARN (fetchPublicIpAddress 4 3 (fun _ => none)).2 = 3 ∧
    countLog .ERROR (fetchPublicIpAddress 4 3 (fun _ => none)).2 = 1 ∧
    countUpsertStart
      (monitorFamily cfgEx .v4 (fun _ => none) upsertFailEnv (some "198.51.100.7")).2 = 0 ∧
    (monitorFamily cfgEx .v4 (fun _ => none) upsertFailEnv (some "198.51.100.7")).1 =
      some "198.51.100.7" := by
  have h := resolver_exhaustion 4 3 (fun _ => none) cfgEx .v4 upsertFailEnv
    (some "198.51.100.7") (by norm_num) (fun _ => rfl) rfl
  exact ⟨h.1, h.2.1, h.2.2.1, h.2.2.2.1, h.2.2.2.2.2⟩

/-- Claim C4 is false on the code: a create is not issued exactly when
the lookup reports zero matching records — here the lookup throws a
transport error (no zero-match report), yet a create call is issued. -/
theorem upsert_create_iff_zero_matches_false :
    ¬ (1 ≤ (updateDnsRecord cfgEx upsertLookupDownEnv .A "198.51.100.7").countP
          isCreateCall ↔
        upsertLookupDownEnv.lookup = .ok []) := by decide

/-- Claim C4 amended: `upsert` first looks up the record by name+type
(the lookup call opens every trace); with multiple matches the first
returned id is the one used for the full-content PUT (same ttl/proxied,
new content), and no create is issued; a create call (with the given
content/ttl/proxied) is issued exactly when the lookup yields no usable
record id — zero matches, a provider-reported lookup failure, a lookup
transport error, or an empty id string. -/
theorem upsert_amended (cfg : Config) (uenv : UpsertEnv) (t : RecordType) (ip : String) :
    (updateDnsRecord cfg uenv t ip).head? =
      some (.lookupCall t cfg.dnsName dnsLookupOptions) ∧
    (1 ≤ (updateDnsRecord cfg uenv t ip).countP isCreateCall ↔
      jsFalsy (fetchDnsRecordId cfg uenv.lookup t).1 = true) ∧
    (1 ≤ (updateDnsRecord cfg uenv t ip).countP isCreateCall →
      Event.createCall t cfg.dnsName ip cfg.ttl cfg.proxied dnsCreateOptions ∈
        updateDnsRecord cfg uenv t ip) ∧
    (∀ i rest, uenv.lookup = .ok (i :: rest) → i ≠ "" →
      Event.putCall i t cfg.dnsName ip cfg.ttl cfg.proxied dnsUpdateOptions ∈
        updateDnsRecord cfg uenv t ip ∧
      (updateDnsRecord cfg uenv t ip).countP isCreateCall = 0) := by
  rcases uenv with ⟨lr, co, po⟩
  rcases lr with ids | _ | _
  · rcases ids with _ | ⟨i, rest⟩
    · rcases co with _ | _ | _ <;>
        simp [updateDnsRecord, fetchDnsRecordId, createDnsRecord, jsFalsy,
          isCreateCall, List.countP_cons, List.countP_append]
    · by_cases hi : i = ""
      · subst hi
        rcases co with _ | _ | _ <;> rcases po with _ | _ | _ <;>
          simp [updateDnsRecord, fetchDnsRecordId, createDnsRecord, jsFalsy,
            isCreateCall, List.countP_cons, List.countP_append]
      · rcases co with _ | _ | _ <;> rcases po with _ | _ | _ <;>
          simp [updateDnsRecord, fetchDnsRecordId, createDnsRecord, jsFalsy, hi,
            isCreateCall, List.countP_cons, List.countP_append]
  · rcases co with _ | _ | _ <;>
      simp [updateDnsRecord, fetchDnsRecordId, createDnsRecord, jsFalsy,
        isCreateCall, List.countP_cons, List.countP_append]
  · rcases co with _ | _ | _ <;>
      simp [updateDnsRecord, fetchDnsRecordId, createDnsRecord, jsFalsy,
        isCreateCall, List.countP_cons, List.countP_append]

/-- Witness for C4 amended: a lookup returning two matches uses the
first id for the PUT and issues no create. -/
theorem upsert_amended_witness :
    (updateDnsRecord cfgEx uenvMulti .A "198.51.100.7").head? =
      some (.lookupCall .A "example.com" dnsLookupOptions) ∧
    Event.putCall "r1" .A "example.com" "198.51.100.7" 3600 false dnsUpdateOptions ∈
      updateDnsRecord cfgEx uenvMulti .A "198.51.100.7" ∧
    (updateDnsRecord cfgEx uenvMulti .A "198.51.100.7").countP isCreateCall = 0 := by
  have h := upsert_amended cfgEx uenvMulti .A "198.51.100.7"
  have hput := h.2.2.2 "r1" ["r2"] rfl (by decide)
  exact ⟨h.1, hput.1, hput.2⟩

/-- Claim C3 is false on the code: `shouldSync` is not true exactly when
the resolved value is non-null and differs from the stored state — the
guard is JS truthiness, so a non-null empty string that differs from the
stored value still yields false, and such a cycle performs no upsert and
logs the fetch-failure ERROR instead of syncing. -/
theorem shouldSync_claim_false :
    ¬ (shouldSync (some "") (some "203.0.113.9") = true ↔
        (Option.isSome (some "" : Option String) = true ∧
          (some "" : Option String) ≠ some "203.0.113.9")) ∧
    countUpsertStart
      (monitorFamily cfgEx .v4 (fun _ => some "") upsertFailEnv
        (some "203.0.113.9")).2 = 0 := by decide

/-- Claim C3 amended: `shouldSync(family, resolved)` returns true iff
`resolved` is non-null, non-empty (JS truthiness) and differs by exact
string inequality from the stored state; and a cycle that resolves the
same (truthy) value as the stored state performs no upsert and no
provider call, appending exactly one INFO entry — the "no change"
message, as the trace's last event — while the stored state is kept. -/
theorem shouldSync_amended :
    (∀ resolved stored, shouldSync resolved stored = true ↔
      ∃ s, resolved = some s ∧ s ≠ "" ∧ stored ≠ some s) ∧
    (∀ cfg fam (results : Nat → Option String) uenv s, s ≠ "" →
      (fetchPublicIpAddress (famVersion fam) cfg.retryCount results).1 = some s →
      countUpsertStart (monitorFamily cfg fam results uenv (some s)).2 = 0 ∧
      (monitorFamily cfg fam results uenv (some s)).2.countP isApiCall = 0 ∧
      countLog .INFO (monitorFamily cfg fam results uenv (some s)).2 = 1 ∧
      (monitorFamily cfg fam results uenv (some s)).2.getLast? =
        some (.log .INFO (noChangeMessage fam)) ∧
      (monitorFamily cfg fam results uenv (some s)).1 = some s) := by
  constructor
  · intro resolved stored
    rcases resolved with _ | s
    · simp [shouldSync]
    · by_cases hs : s = ""
      · subst hs
        simp [shouldSync]
      · simp only [shouldSync, hs, if_false, decide_eq_true_eq]
        constructor
        · intro h
          exact ⟨s, rfl, hs, fun hc => h (hc ▸ rfl)⟩
        · rintro ⟨s', hs', _, hne⟩
          rw [Option.some_inj] at hs'
          subst hs'
          exact fun hc => hne hc.symm
  · intro cfg fam results uenv s hs hf
    have hmf := monitorFamily_nochange cfg fam results uenv s hf hs
    have hW : ∀ p : Event → Bool, (∀ m, p (.log .WARN m) = false) →
        (∀ m, p (.log .ERROR m) = false) →
        (fetchPublicIpAddress (famVersion fam) cfg.retryCount results).2.countP p = 0 :=
      fun p h1 h2 => fetch_countP_zero results (famVersion fam) cfg.retryCount p h1 h2
    refine ⟨?_, ?_, ?_, ?_, by rw [hmf]⟩
    · rw [hmf]
      simp only [countUpsertStart, List.countP_append, List.countP_cons,
        List.countP_nil, isUpsertStart]
      simp [hW isUpsertStart (fun _ => rfl) (fun _ => rfl)]
    · rw [hmf]
      simp only [List.countP_append, List.countP_cons, List.countP_nil, isApiCall]
      simp [hW isApiCall (fun _ => rfl) (fun _ => rfl)]
    · rw [hmf]
      simp only [countLog, List.countP_append, List.countP_cons,
        List.countP_nil, isLogAt]
      simp [hW (isLogAt .INFO) (fun _ => rfl) (fun _ => rfl), countLog]
    · rw [hmf]
      simp [List.getLast?_concat]

/-- Witness for C3 amended: a changed truthy value syncs, and a repeated
value produces exactly one INFO append and no upsert. -/
theorem shouldSync_amended_witness :
    shouldSync (some "203.0.113.9") (some "198.51.100.7") = true ∧
    countUpsertStart
      (monitorFamily cfgEx .v4 (fun _ => some "203.0.113.9") upsertFailEnv
        (some "203.0.113.9")).2 = 0 ∧
    countLog .INFO
      (monitorFamily cfgEx .v4 (fun _ => some "203.0.113.9") upsertFailEnv
        (some "203.0.113.9")).2 = 1 := by
  have h := shouldSync_amended
  have h2 := h.2 cfgEx .v4 (fun _ => some "203.0.113.9") upsertFailEnv "203.0.113.9"
    (by decide) rfl
  exact ⟨(h.1 (some "203.0.113.9") (some "198.51.100.7")).mpr
    ⟨"203.0.113.9", rfl, by decide, by decide⟩, h2.1, h2.2.2.1⟩

/-- Claim C2 is false on the code: the stored state is not updated only
upon completion of the upsert call — in this concrete cycle the commit
event strictly precedes the start (and hence the completion) of the
upsert invocation. -/
theorem commit_before_completion_claim_false :
    monitorTraceEx.findIdx isCommit < monitorTraceEx.findIdx isUpsertStart ∧
    monitorTraceEx.findIdx isUpsertStart < monitorTraceEx.findIdx isUpsertDone ∧
    monitorTraceEx.findIdx isUpsertDone < monitorTraceEx.length := by decide

/-- Claim C2 amended: whenever the Change Detector reports a change, the
stored state is updated to the newly resolved value immediately before
the upsert call is initiated — unconditionally, regardless of the call's
subsequent success or failure — not upon its completion: the cycle's
trace is the resolver's log appends (which contain no commit and no
upsert event) followed by the commit, then the upsert invocation. -/
theorem commit_before_upsert_amended (cfg : Config) (fam : Fam)
    (results : Nat → Option String) (uenv : UpsertEnv) (stored : Option String)
    (s : String)
    (hf : (fetchPublicIpAddress (famVersion fam) cfg.retryCount results).1 = some s)
    (hne : s ≠ "") (hd : some s ≠ stored) :
    (monitorFamily cfg fam results uenv stored).1 = some s ∧
    (monitorFamily cfg fam results uenv stored).2 =
      (fetchPublicIpAddress (famVersion fam) cfg.retryCount results).2 ++
        Event.commit fam s ::
          Event.upsertStart (famType fam) s ::
            updateDnsRecord cfg uenv (famType fam) s ++
              [Event.upsertDone (famType fam) s] ∧
    (∀ e ∈ (fetchPublicIpAddress (famVersion fam) cfg.retryCount results).2,
      isCommit e = false ∧ isUpsertStart e = false ∧ isUpsertDone e = false) := by
  have h := monitorFamily_changed cfg fam results uenv stored s hf hne hd
  refine ⟨by rw [h], by rw [h], ?_⟩
  intro e he
  simp only [fetchPublicIpAddress] at he
  rcases fetchLoop_shape results (famVersion fam) cfg.retryCount cfg.retryCount 0 e he
    with ⟨m, rfl⟩ | ⟨m, rfl⟩ <;> exact ⟨rfl, rfl, rfl⟩

/-- Witness for C2 amended at a concrete changed cycle. -/
theorem commit_before_upsert_amended_witness :
    (monitorFamily cfgEx .v4 (fun _ => some "203.0.113.9") upsertFailEnv
        (some "198.51.100.7")).1 = some "203.0.113.9" ∧
    (monitorFamily cfgEx .v4 (fun _ => some "203.0.113.9") upsertFailEnv
        (some "198.51.100.7")).2 =
      (fetchPublicIpAddress 4 3 (fun _ => some "203.0.113.9")).2 ++
        Event.commit .v4 "203.0.113.9" ::
          Event.upsertStart .A "203.0.113.9" ::
            updateDnsRecord cfgEx upsertFailEnv .A "203.0.113.9" ++
              [Event.upsertDone .A "203.0.113.9"] := by
  have h := commit_before_upsert_amended cfgEx .v4 (fun _ => some "203.0.113.9")
    upsertFailEnv (some "198.51.100.7") "203.0.113.9" rfl (by decide) (by decide)
  exact ⟨h.1, h.2.1⟩

/-- Claim C1 is false on the code: after a cycle whose upsert fails
(provider rejects the PUT) the stored state is not left mismatched — it
already equals the resolved value — so the next cycle presenting the
same resolved address detects no change and does not re-attempt the
upsert (it only appends the INFO "no change" entry). -/
theorem failed_upsert_not_retried_claim_false :
    upsertFailEnv.putOutcome = .apiFail ∧
    (monitorFamily cfgEx .v4 (fun _ => some "203.0.113.9") upsertFailEnv
        (some "198.51.100.7")).1 = some "203.0.113.9" ∧
    countUpsertStart monitorTraceEx = 1 ∧
    countUpsertStart
      (monitorFamily cfgEx .v4 (fun _ => some "203.0.113.9") upsertFailEnv
        (some "203.0.113.9")).2 = 0 ∧
    countLog .INFO
      (monitorFamily cfgEx .v4 (fun _ => some "203.0.113.9") upsertFailEnv
        (some "203.0.113.9")).2 = 1 := by decide

/-- Claim C1 amended: when the resolved address differs from the stored
state, the stored state is committed to the resolved value before the
upsert is attempted, regardless of the upsert's outcome (including
provider-reported failure and transport error); consequently a next
cycle presenting the same resolved address detects no mismatch and makes
no upsert attempt — a failed upsert is never retried by the
change-detection mechanism. -/
theorem failed_upsert_not_retried_amended (cfg : Config) (fam : Fam)
    (results results' : Nat → Option String) (uenv uenv' : UpsertEnv)
    (stored : Option String) (s : String)
    (hf : (fetchPublicIpAddress (famVersion fam) cfg.retryCount results).1 = some s)
    (hne : s ≠ "") (hd : some s ≠ stored) :
    (monitorFamily cfg fam results uenv stored).1 = some s ∧
    countUpsertStart (monitorFamily cfg fam results uenv stored).2 = 1 ∧
    ((fetchPublicIpAddress (famVersion fam) cfg.retryCount results').1 = some s →
      countUpsertStart
        (monitorFamily cfg fam results' uenv'
          (monitorFamily cfg fam results uenv stored).1).2 = 0 ∧
      (monitorFamily cfg fam results' uenv'
          (monitorFamily cfg fam results uenv stored).1).1 = some s) := by
  have h := monitorFamily_changed cfg fam results uenv stored s hf hne hd
  refine ⟨by rw [h], ?_, ?_⟩
  · rw [h]
    have h1 := fetch_countP_zero results (famVersion fam) cfg.retryCount isUpsertStart
      (fun _ => rfl) (fun _ => rfl)
    have h2 := updateDnsRecord_countP_zero cfg uenv (famType fam) s isUpsertStart
      (fun _ _ => rfl) (fun e he _ => by cases e <;> simp_all [isApiCall, isUpsertStart])
    simp [countUpsertStart, List.countP_append, List.countP_cons, isUpsertStart, h1, h2]
  · intro hf'
    have hst : (monitorFamily cfg fam results uenv stored).1 = some s := by rw [h]
    rw [hst]
    have h2 := monitorFamily_nochange cfg fam results' uenv' s hf' hne
    refine ⟨?_, by rw [h2]⟩
    rw [h2]
    have h1 := fetch_countP_zero results' (famVersion fam) cfg.retryCount isUpsertStart
      (fun _ => rfl) (fun _ => rfl)
    simp [countUpsertStart, List.countP_append, List.countP_cons, isUpsertStart, h1]

/-- Witness for C1 amended at a concrete failed-upsert cycle. -/
theorem failed_upsert_not_retried_amended_witness :
    (monitorFamily cfgEx .v4 (fun _ => some "203.0.113.9") upsertFailEnv
        (some "198.51.100.7")).1 = some "203.0.113.9" ∧
    countUpsertStart
      (monitorFamily cfgEx .v4 (fun _ => some "203.0.113.9") upsertFailEnv
        (some "203.0.113.9")).2 = 0 := by
  have h := failed_upsert_not_retried_amended cfgEx .v4 (fun _ => some "203.0.113.9")
    (fun _ => some "203.0.113.9") upsertFailEnv upsertFailEnv (some "198.51.100.7")
    "203.0.113.9" rfl (by decide) (by decide)
  have h3 := h.2.2 rfl
  exact ⟨h.1, by rw [h.1] at h3; exact h3.1⟩

set_option maxHeartbeats 1600000 in
/-- Claim C9: at startup (all mandatory variables present) each enabled
family is resolved best-effort and exactly one upsert is attempted per
enabled family with whatever was resolved: with v4 resolving to a truthy
value and v6 disabled the trace holds exactly one upsert attempt, of
type A with the resolved content, and no AAAA-typed event; if the
enabled family's resolution fails, its initial upsert is skipped with a
WARN append. -/
theorem startServer_initial_upserts (cfg : Config) (e : EnvVars) (senv : CycleEnv)
    (hmiss : missingEnvVars e = []) (h6 : cfg.ipv6Enabled = false) :
    (∀ s, (fetchPublicIpAddress 4 cfg.retryCount senv.fetch4).1 = some s → s ≠ "" →
      countUpsertStart (startServer cfg e senv).2.2 = 1 ∧
      Event.upsertStart .A s ∈ (startServer cfg e senv).2.2 ∧
      countType .AAAA (startServer cfg e senv).2.2 = 0 ∧
      (startServer cfg e senv).2.1.v4 = some s) ∧
    ((fetchPublicIpAddress 4 cfg.retryCount senv.fetch4).1 = none →
      countUpsertStart (startServer cfg e senv).2.2 = 0 ∧
      Event.log .WARN (skipInitialMessage .A) ∈ (startServer cfg e senv).2.2) := by
  have hstart := startServer_eq cfg e senv hmiss h6
  have hfetch0 : ∀ p : Event → Bool, (∀ m, p (.log .WARN m) = false) →
      (∀ m, p (.log .ERROR m) = false) →
      (fetchPublicIpAddress 4 cfg.retryCount senv.fetch4).2.countP p = 0 :=
    fun p h1 h2 => fetch_countP_zero senv.fetch4 4 cfg.retryCount p h1 h2
  constructor
  · intro s hs hne
    have hinit : initialUpdate cfg senv.upsert4 .A
        (fetchPublicIpAddress 4 cfg.retryCount senv.fetch4).1 =
        Event.upsertStart .A s ::
          updateDnsRecord cfg senv.upsert4 .A s ++ [Event.upsertDone .A s] := by
      rw [hs]
      simp [initialUpdate, hne]
    refine ⟨?_, ?_, ?_, by rw [hstart]; exact hs⟩
    · rw [hstart]
      have h1 := hfetch0 isUpsertStart (fun _ => rfl) (fun _ => rfl)
      have h2 := updateDnsRecord_countP_zero cfg senv.upsert4 .A s isUpsertStart
        (fun _ _ => rfl) (fun ev hev _ => by cases ev <;> simp_all [isApiCall, isUpsertStart])
      simp [hinit, countUpsertStart, List.countP_append, List.countP_cons,
        isUpsertStart, h1, h2]
    · rw [hstart]
      simp [hinit]
    · rw [hstart]
      have h1 := hfetch0 (fun ev => decide (eventType ev = some RecordType.AAAA))
        (fun _ => rfl) (fun _ => rfl)
      have h2 := updateDnsRecord_countP_zero cfg senv.upsert4 .A s
        (fun ev => decide (eventType ev = some RecordType.AAAA))
        (fun _ _ => rfl) (fun ev _ het => by simp [het])
      simp only [hinit, countType, List.countP_cons, List.countP_append, h1, h2]
      simp [eventType]
  · intro hnone
    have hinit : initialUpdate cfg senv.upsert4 .A
        (fetchPublicIpAddress 4 cfg.retryCount senv.fetch4).1 =
        [Event.log .WARN (skipInitialMessage .A)] := by
      rw [hnone]
      simp [initialUpdate]
    refine ⟨?_, ?_⟩
    · rw [hstart]
      have h1 := hfetch0 isUpsertStart (fun _ => rfl) (fun _ => rfl)
      simp [hinit, countUpsertStart, List.countP_append, List.countP_cons,
        isUpsertStart, h1]
    · rw [hstart]
      simp [hinit]

/-- Witness for C9 at the spec's scenario: v4 resolves to `203.0.113.5`
and v6 is disabled. -/
theorem startServer_initial_upserts_witness :
    countUpsertStart (startServer cfgEx envComplete startupEnvEx).2.2 = 1 ∧
    Event.upsertStart .A "203.0.113.5" ∈ (startServer cfgEx envComplete startupEnvEx).2.2 ∧
    countType .AAAA (startServer cfgEx envComplete startupEnvEx).2.2 = 0 := by
  have h := (startServer_initial_upserts cfgEx envComplete startupEnvEx
    (by decide) rfl).1 "203.0.113.5" rfl (by decide)
  exact ⟨h.1, h.2.1, h.2.2.1⟩

end CFDns
